import Mathlib

/-!
Verification development for the MCQ-generation core of the
autoISAC_LLM_Knowledge repository (file `src/question_creation.py`).

The Python code works on values produced by `json.load`, i.e. arbitrary
JSON trees, and on dataclass records.  We embed JSON values as the
inductive type `Json`, Python's dict/str primitives as explicit total
functions returning `Except PyErr _` where the Python operation can
raise, and the functions of `question_creation.py` as Lean functions of
the same names (the leading underscore of the private parser helpers is
dropped, which Lean's lexer would not accept).

Modelling notes, fixed once here:
* JSON number literals are modelled as integers; no input exercised by
  the development carries a numeric payload, and the fractional grammar
  is never reached.
* `str.lower` / whitespace stripping are modelled on the ASCII fragment,
  which covers every string the development evaluates.
* The three large constant instruction templates returned by
  `get_tactic_system_prompt`, `get_technique_system_prompt` and
  `get_procedure_system_prompt` are opaque template data passed verbatim
  to the external completion service; they are carried as fields of
  `GenConfig`, and every theorem below holds for all template texts.
* File I/O and the OpenAI client are external collaborators: the file
  read in `generate_all_mcqs` becomes a `Json` argument, the chat
  completion call becomes the `invoke` field of `GenConfig`, and
  `save_mcqs_to_file` is modelled up to the JSON value handed to
  `json.dump`.
-/

namespace AutoISAC

/-- A JSON value as produced by Python's `json.loads`: objects keep their
key insertion order, mirroring Python dicts. -/
inductive Json where
  | null
  | bool (b : Bool)
  | num (n : Int)
  | str (s : String)
  | arr (elems : List Json)
  | obj (members : List (String × Json))

/-- The Python exceptions the embedded fragment can raise. -/
inductive PyErr where
  | attributeError (msg : String)
  | keyError (key : String)
  | typeError (msg : String)
  | valueError (msg : String)
  | jsonDecodeError (msg : String)
deriving DecidableEq

/-- Python `d.get(key, default)`: total on dicts, `AttributeError` on any
other value. -/
def dictGet (j : Json) (key : String) (default : Json) : Except PyErr Json :=
  match j with
  | Json.obj kvs => Except.ok ((kvs.lookup key).getD default)
  | _ => Except.error (PyErr.attributeError "get")

/-- Python `d[key]` on a JSON value: `KeyError` when the key is absent,
`TypeError` when the value is not a dict. -/
def dictIndex (j : Json) (key : String) : Except PyErr Json :=
  match j with
  | Json.obj kvs =>
    match kvs.lookup key with
    | some v => Except.ok v
    | none => Except.error (PyErr.keyError key)
  | _ => Except.error (PyErr.typeError "not subscriptable by string")

/-- Python `d.values()` in insertion order; `AttributeError` off dicts. -/
def dictValues (j : Json) : Except PyErr (List Json) :=
  match j with
  | Json.obj kvs => Except.ok (kvs.map (fun kv => kv.2))
  | _ => Except.error (PyErr.attributeError "values")

/-- Python `for x in j`: lists yield their elements, strings their
characters, dicts their keys; other values raise `TypeError`. -/
def pyIter (j : Json) : Except PyErr (List Json) :=
  match j with
  | Json.arr xs => Except.ok xs
  | Json.str s => Except.ok (s.data.map (fun c => Json.str (String.mk [c])))
  | Json.obj kvs => Except.ok (kvs.map (fun kv => Json.str kv.1))
  | _ => Except.error (PyErr.typeError "not iterable")

/-- ASCII lower-casing of one character. -/
def charLower (c : Char) : Char :=
  if 'A' ≤ c && c ≤ 'Z' then Char.ofNat (c.toNat + 32) else c

/-- ASCII lower-casing of a string (the fragment of `str.lower` the
modelled data exercises). -/
def strLower (s : String) : String :=
  String.mk (s.data.map charLower)

/-- Python `x.lower()`: defined on strings only (`AttributeError`
otherwise). -/
def pyLower (j : Json) : Except PyErr String :=
  match j with
  | Json.str s => Except.ok (strLower s)
  | _ => Except.error (PyErr.attributeError "lower")

/-- Python whitespace for `str.strip` and the JSON lexer. -/
def isPyWs (c : Char) : Bool :=
  c = ' ' || c = '\t' || c = '\n' || c = '\r'

/-- Python `s.strip()` on the ASCII whitespace fragment. -/
def pyStrip (s : String) : String :=
  String.mk (((s.data.dropWhile (fun c => isPyWs c)).reverse.dropWhile
    (fun c => isPyWs c)).reverse)

/-- Index of the first occurrence of `c` in `cs`, or `-1`: the list-level
core of Python `s.find(c)`. -/
def listFind (cs : List Char) (c : Char) : Int :=
  match cs with
  | [] => -1
  | x :: xs =>
    if x = c then 0
    else
      let r := listFind xs c
      if r = -1 then -1 else r + 1

/-- Python `s.find(c)`: first index of `c`, `-1` when absent. -/
def pyFind (s : String) (c : Char) : Int :=
  listFind s.data c

/-- Index of the last occurrence of `c` in `cs`, or `-1`. -/
def listRfind (cs : List Char) (c : Char) : Int :=
  match cs with
  | [] => -1
  | x :: xs =>
    let r := listRfind xs c
    if r = -1 then (if x = c then 0 else -1) else r + 1

/-- Python `s.rfind(c)`: last index of `c`, `-1` when absent. -/
def pyRfind (s : String) (c : Char) : Int :=
  listRfind s.data c

/-- Python slice `s[i:j]` for the non-negative indices the code uses. -/
def pySlice (s : String) (i j : Nat) : String :=
  String.mk ((s.data.take j).drop i)

/-- Effectful map over a list in the `Except` monad, written as a plain
structural recursion so that concrete runs reduce definitionally. -/
def exceptMapList {α β : Type} (f : α → Except PyErr β) :
    List α → Except PyErr (List β)
  | [] => Except.ok []
  | x :: xs => do
    let y ← f x
    let ys ← exceptMapList f xs
    pure (y :: ys)

/-- Total field access on a JSON value, for theorem statements: the
value under `key` when the value is a dict holding it, the default
otherwise. -/
def jGetD (j : Json) (key : String) (default : Json) : Json :=
  match j with
  | Json.obj kvs => (kvs.lookup key).getD default
  | _ => default

mutual

/-- Python `str()` of a loaded JSON value, as interpolated into the
f-string user prompts.  Only string payloads are ever rendered by the
theorems below; the container cases follow Python's `repr`-based
rendering on the modelled fragment. -/
def pyStr : Json → String
  | Json.null => "None"
  | Json.bool true => "True"
  | Json.bool false => "False"
  | Json.num n => toString n
  | Json.str s => s
  | Json.arr xs => "[" ++ String.intercalate ", " (pyStrList xs) ++ "]"
  | Json.obj kvs =>
      "\x7b" ++ String.intercalate ", " (pyStrPairs kvs) ++ "\x7d"

/-- Renderings of the elements of a list value, for `pyStr`. -/
def pyStrList : List Json → List String
  | [] => []
  | x :: xs => pyStr x :: pyStrList xs

/-- Renderings of the members of an object value, for `pyStr`. -/
def pyStrPairs : List (String × Json) → List String
  | [] => []
  | kv :: kvs => (kv.1 ++ ": " ++ pyStr kv.2) :: pyStrPairs kvs

end

/-! ### A model of `json.loads`

Recursive-descent parser over the character list, with a fuel argument
for totality.  Objects are built with Python-dict insertion semantics
(a repeated key keeps its first position and takes the last value). -/

/-- Skip JSON/Python whitespace. -/
def skipJsonWs (cs : List Char) : List Char :=
  cs.dropWhile (fun c => isPyWs c)

/-- Decimal digit test for the JSON lexer. -/
def isJsonDigit (c : Char) : Bool :=
  '0' ≤ c && c ≤ '9'

/-- Hexadecimal digit value for `\uXXXX` escapes, read off the code
point. -/
def hexDigitVal (c : Char) : Option Nat :=
  let n := c.toNat
  if 48 ≤ n ∧ n ≤ 57 then some (n - 48)
  else if 97 ≤ n ∧ n ≤ 102 then some (n - 87)
  else if 65 ≤ n ∧ n ≤ 70 then some (n - 55)
  else none

/-- The one-character JSON escapes, as a translation table. -/
def jsonEscape (c : Char) : Option Char :=
  List.lookup c
    [('"', '"'), ('\\', '\\'), ('/', '/'), ('b', Char.ofNat 8),
     ('f', Char.ofNat 12), ('n', Char.ofNat 10), ('r', Char.ofNat 13),
     ('t', Char.ofNat 9)]

/-- Body of a JSON string literal, after the opening quote. -/
def parseJsonString (acc : List Char) (cs : List Char) :
    Except PyErr (String × List Char) :=
  match cs with
  | '"' :: rest => Except.ok (String.mk acc.reverse, rest)
  | '\\' :: 'u' :: a :: b :: c :: d :: rest =>
    (match hexDigitVal a, hexDigitVal b, hexDigitVal c, hexDigitVal d with
     | some va, some vb, some vc, some vd =>
       parseJsonString (Char.ofNat (((va * 16 + vb) * 16 + vc) * 16 + vd) :: acc) rest
     | _, _, _, _ => Except.error (PyErr.jsonDecodeError "bad unicode escape"))
  | '\\' :: e :: rest =>
    (match jsonEscape e with
     | some ch => parseJsonString (ch :: acc) rest
     | none => Except.error (PyErr.jsonDecodeError "bad escape"))
  | '\\' :: [] => Except.error (PyErr.jsonDecodeError "unterminated escape")
  | c :: rest => parseJsonString (c :: acc) rest
  | [] => Except.error (PyErr.jsonDecodeError "unterminated string")

/-- Leading run of decimal digits. -/
def takeJsonDigits : List Char → List Char × List Char
  | c :: cs =>
    if isJsonDigit c then
      let p := takeJsonDigits cs
      (c :: p.1, p.2)
    else ([], c :: cs)
  | [] => ([], [])

/-- Digit run to a natural number. -/
def digitsToNat (ds : List Char) : Nat :=
  ds.foldl (fun acc c => 10 * acc + (c.toNat - 48)) 0

/-- An integer JSON number literal (the fragment of the number grammar
the development exercises; a fractional or exponent suffix is rejected
rather than modelled as a float). -/
def parseJsonInt (cs : List Char) : Except PyErr (Json × List Char) :=
  let p := match cs with
    | '-' :: r => (true, r)
    | _ => (false, cs)
  let q := takeJsonDigits p.2
  if q.1.isEmpty then Except.error (PyErr.jsonDecodeError "expecting value")
  else
    match q.2 with
    | '.' :: _ => Except.error (PyErr.jsonDecodeError "float literal outside modelled fragment")
    | 'e' :: _ => Except.error (PyErr.jsonDecodeError "float literal outside modelled fragment")
    | 'E' :: _ => Except.error (PyErr.jsonDecodeError "float literal outside modelled fragment")
    | rest =>
      Except.ok
        (Json.num (if p.1 then -(digitsToNat q.1 : Int) else (digitsToNat q.1 : Int)), rest)

/-- Insert into a Python dict held as an ordered association list: a
repeated key keeps its first position and takes the new value. -/
def objInsert (kvs : List (String × Json)) (k : String) (v : Json) :
    List (String × Json) :=
  match kvs with
  | [] => [(k, v)]
  | kv :: rest =>
    if kv.1 = k then (kv.1, v) :: rest
    else kv :: objInsert rest k v

/-- Build a Python dict from the raw member pairs of an object literal,
in textual order: later duplicates overwrite earlier ones in place. -/
def buildDict (pairs : List (String × Json)) : List (String × Json) :=
  pairs.foldl (fun acc kv => objInsert acc kv.1 kv.2) []

mutual

/-- One JSON value (fuel-bounded recursive descent). -/
def parseJsonValue (fuel : Nat) (cs : List Char) :
    Except PyErr (Json × List Char) :=
  match fuel with
  | 0 => Except.error (PyErr.jsonDecodeError "document too deep")
  | fuel + 1 =>
    match skipJsonWs cs with
    | 'n' :: 'u' :: 'l' :: 'l' :: r => Except.ok (Json.null, r)
    | 't' :: 'r' :: 'u' :: 'e' :: r => Except.ok (Json.bool true, r)
    | 'f' :: 'a' :: 'l' :: 's' :: 'e' :: r => Except.ok (Json.bool false, r)
    | '"' :: r =>
      (match parseJsonString [] r with
       | Except.ok sr => Except.ok (Json.str sr.1, sr.2)
       | Except.error e => Except.error e)
    | '[' :: r =>
      (match skipJsonWs r with
       | ']' :: r2 => Except.ok (Json.arr [], r2)
       | r2 => (match parseJsonElems fuel r2 with
                | Except.ok er => Except.ok (Json.arr er.1, er.2)
                | Except.error e => Except.error e))
    | '\x7b' :: r =>
      (match skipJsonWs r with
       | '\x7d' :: r2 => Except.ok (Json.obj [], r2)
       | r2 => (match parseJsonMembers fuel r2 with
                | Except.ok mr => Except.ok (Json.obj (buildDict mr.1), mr.2)
                | Except.error e => Except.error e))
    | c :: rest =>
      if c = '-' || isJsonDigit c then parseJsonInt (c :: rest)
      else Except.error (PyErr.jsonDecodeError "expecting value")
    | [] => Except.error (PyErr.jsonDecodeError "expecting value")

/-- One-or-more comma-separated array elements, then `]`. -/
def parseJsonElems (fuel : Nat) (cs : List Char) :
    Except PyErr (List Json × List Char) :=
  match fuel with
  | 0 => Except.error (PyErr.jsonDecodeError "document too deep")
  | fuel + 1 =>
    match parseJsonValue fuel cs with
    | Except.error e => Except.error e
    | Except.ok vr =>
      match skipJsonWs vr.2 with
      | ',' :: r2 =>
        (match parseJsonElems fuel r2 with
         | Except.ok er => Except.ok (vr.1 :: er.1, er.2)
         | Except.error e => Except.error e)
      | ']' :: r2 => Except.ok ([vr.1], r2)
      | _ => Except.error (PyErr.jsonDecodeError "expecting comma or bracket")

/-- One-or-more `"key": value` members, then the closing brace, returned
as the raw pairs in textual order. -/
def parseJsonMembers (fuel : Nat) (cs : List Char) :
    Except PyErr (List (String × Json) × List Char) :=
  match fuel with
  | 0 => Except.error (PyErr.jsonDecodeError "document too deep")
  | fuel + 1 =>
    match skipJsonWs cs with
    | '"' :: r =>
      (match parseJsonString [] r with
       | Except.error e => Except.error e
       | Except.ok kr =>
         match skipJsonWs kr.2 with
         | ':' :: r2 =>
           (match parseJsonValue fuel r2 with
            | Except.error e => Except.error e
            | Except.ok vr =>
              match skipJsonWs vr.2 with
              | ',' :: r3 =>
                (match parseJsonMembers fuel r3 with
                 | Except.ok mr =>
                   Except.ok ((kr.1, vr.1) :: mr.1, mr.2)
                 | Except.error e => Except.error e)
              | '\x7d' :: r3 => Except.ok ([(kr.1, vr.1)], r3)
              | _ => Except.error (PyErr.jsonDecodeError "expecting comma or brace"))
         | _ => Except.error (PyErr.jsonDecodeError "expecting colon"))
    | _ => Except.error (PyErr.jsonDecodeError "expecting property name")

end

/-- Python `json.loads`: parse one value and require only whitespace
afterwards. -/
def json_loads (s : String) : Except PyErr Json :=
  match parseJsonValue (2 * s.length + 2) s.data with
  | Except.error e => Except.error e
  | Except.ok vr =>
    match skipJsonWs vr.2 with
    | [] => Except.ok vr.1
    | _ => Except.error (PyErr.jsonDecodeError "extra data")

/-! ### The data model of `question_creation.py` -/

/-- The `EntityType` enum. -/
inductive EntityType where
  | TACTIC
  | TECHNIQUE
  | PROCEDURE
deriving DecidableEq

/-- The `MCQQuestion` dataclass.  The dataclass declares `str` fields but
Python does not enforce them: except for `entity_type`, which the code
always sets from a string it owns, the fields carry whatever JSON value
the parsed service reply supplied, so they are embedded as `Json`. -/
structure MCQQuestion where
  entity_id : Json
  entity_title : Json
  entity_type : String
  question_type : Json
  question : Json
  options : List Json
  correct_answer : Json
  explanation : Json

/-- The `tactic_info` context dict built in `extract_entities_from_json`
and shared by all work items of one tactic. -/
structure TacticInfo where
  tactic_title : Json
  tactic_description : Json
  tactic_id : Json

/-- The kind-specific extra key of a work-item dict: exactly one of
`parent_tactic`, `associated_techniques` or `sub_techniques` is present,
matching the three construction sites in `extract_entities_from_json`. -/
inductive EntityContext where
  | parentTactic (info : TacticInfo)
  | associatedTechniques (ts : Json)
  | subTechniques (ts : Json)

/-- A work-item dict (`technique_data` / `procedure_data`): the common
keys plus the kind-specific context key. -/
structure EntityData where
  entity_id : Json
  entity_title : Json
  entity_type : String
  entity_description : Json
  context : EntityContext

/-- Python `'parent_tactic' in entity_data` on a work-item dict. -/
def hasParentTactic (e : EntityData) : Bool :=
  match e.context with
  | EntityContext.parentTactic _ => true
  | _ => false

/-! ### Entity Classifier and Entity Extractor -/

/-- `identify_entity_type` (`question_creation.py:387-410`): read the
declared `type` (defaulting to the empty string), lower-case it, accept a
recognized value, and otherwise fall back on the presence of a non-empty
`technique` list. -/
def identify_entity_type (json_data : Json) : Except PyErr EntityType := do
  let t ← dictGet json_data "type" (Json.str "")
  let entity_type ← pyLower t
  if entity_type = "tactic" then pure EntityType.TACTIC
  else if entity_type = "procedure" then pure EntityType.PROCEDURE
  else if entity_type = "technique" then pure EntityType.TECHNIQUE
  else
    match json_data with
    | Json.obj kvs =>
      (match kvs.lookup "technique" with
       | some (Json.arr ts) =>
         if ts.length > 0 then pure EntityType.TACTIC else pure EntityType.TECHNIQUE
       | some _ => pure EntityType.TECHNIQUE
       | none => pure EntityType.TECHNIQUE)
    | _ => pure EntityType.TECHNIQUE

/-- The per-child body of the tactic branch of
`extract_entities_from_json`: build one `technique_data` work item from a
child record, carrying the shared `tactic_info`. -/
def mkTacticChild (tactic_info : TacticInfo) (technique : Json) :
    Except PyErr EntityData := do
  let mid ← dictGet technique "mitreId" (Json.str "")
  let eid ← dictGet technique "id" mid
  let etitle ← dictGet technique "title" (Json.str "")
  let edesc ← dictGet technique "description" (Json.str "")
  pure { entity_id := eid, entity_title := etitle, entity_type := "technique",
         entity_description := edesc,
         context := EntityContext.parentTactic tactic_info }

/-- `extract_entities_from_json` (`question_creation.py:412-465`):
classify, then build the work-item list for the detected kind. -/
def extract_entities_from_json (json_data : Json) :
    Except PyErr (List EntityData) := do
  let entity_type ← identify_entity_type json_data
  match entity_type with
  | EntityType.TACTIC => do
    let ttitle ← dictGet json_data "title" (Json.str "")
    let tdesc ← dictGet json_data "description" (Json.str "")
    let tmid ← dictGet json_data "mitreId" (Json.str "")
    let tid ← dictGet json_data "id" tmid
    let tactic_info : TacticInfo :=
      { tactic_title := ttitle, tactic_description := tdesc, tactic_id := tid }
    let techField ← dictGet json_data "technique" (Json.arr [])
    let children ← pyIter techField
    exceptMapList (fun technique => mkTacticChild tactic_info technique) children
  | EntityType.PROCEDURE => do
    let mid ← dictGet json_data "mitreId" (Json.str "")
    let eid ← dictGet json_data "id" mid
    let etitle ← dictGet json_data "title" (Json.str "")
    let edesc ← dictGet json_data "description" (Json.str "")
    let assoc ← dictGet json_data "technique" (Json.arr [])
    pure [{ entity_id := eid, entity_title := etitle, entity_type := "procedure",
            entity_description := edesc,
            context := EntityContext.associatedTechniques assoc }]
  | EntityType.TECHNIQUE => do
    let mid ← dictGet json_data "mitreId" (Json.str "")
    let eid ← dictGet json_data "id" mid
    let etitle ← dictGet json_data "title" (Json.str "")
    let edesc ← dictGet json_data "description" (Json.str "")
    let subs ← dictGet json_data "technique" (Json.arr [])
    pure [{ entity_id := eid, entity_title := etitle, entity_type := "technique",
            entity_description := edesc,
            context := EntityContext.subTechniques subs }]

/-! ### Prompt Builder -/

/-- `_create_tactic_user_prompt` (`question_creation.py:521-535`). -/
def create_tactic_user_prompt (e : EntityData) (tactic : TacticInfo) : String :=
  "Generate a multiple choice question for the following technique within its tactic context:\n\n" ++
  "                **Tactic Context:**\n" ++
  "                - Title: " ++ pyStr tactic.tactic_title ++ "\n" ++
  "                - Description: " ++ pyStr tactic.tactic_description ++ "\n\n" ++
  "                **Technique Details:**\n" ++
  "                - ID: " ++ pyStr e.entity_id ++ "\n" ++
  "                - Title: " ++ pyStr e.entity_title ++ "\n" ++
  "                - Description: " ++ pyStr e.entity_description ++ "\n\n" ++
  "                Please generate exactly one question following the specified format and requirements."

/-- `_create_technique_user_prompt` (`question_creation.py:537-544`). -/
def create_technique_user_prompt (e : EntityData) : String :=
  "Generate a multiple choice question for the following technique:\n" ++
  "                **Technique Details:**\n" ++
  "                - ID: " ++ pyStr e.entity_id ++ "\n" ++
  "                - Title: " ++ pyStr e.entity_title ++ "\n" ++
  "                - Description: " ++ pyStr e.entity_description ++ "\n" ++
  "                Please generate exactly one question following the specified format and requirements."

/-- The `techniques_info` accumulation of
`_create_procedure_user_prompt`: one bullet line per associated
technique. -/
def proceduresTechniquesInfo (ts : Json) : Except PyErr String := do
  let items ← pyIter ts
  let lines ← exceptMapList (fun tech => do
    let ttitle ← dictGet tech "title" (Json.str "")
    let tdesc ← dictGet tech "description" (Json.str "")
    pure ("- " ++ pyStr ttitle ++ ": " ++ pyStr tdesc ++ "\n")) items
  pure (String.join lines)

/-- Python truthiness of a JSON value, as tested by
`if entity_data.get('associated_techniques'):`. -/
def pyTruthy (j : Json) : Bool :=
  match j with
  | Json.arr xs => !xs.isEmpty
  | Json.obj kvs => !kvs.isEmpty
  | Json.str s => !s.isEmpty
  | Json.num n => n != 0
  | Json.bool b => b
  | Json.null => false

/-- `_create_procedure_user_prompt` (`question_creation.py:546-560`):
the bullet block is emitted only when `associated_techniques` is truthy
(a non-empty value). -/
def create_procedure_user_prompt (e : EntityData) (assoc : Json) :
    Except PyErr String := do
  let truthy : Bool := pyTruthy assoc
  let techniques_info ←
    if truthy then do
      let block ← proceduresTechniquesInfo assoc
      pure ("\n**Associated Techniques:**\n" ++ block)
    else pure ""
  pure ("Generate 2-3 multiple choice questions for the following procedure:\n" ++
    "                    **Procedure Details:**\n" ++
    "                    - ID: " ++ pyStr e.entity_id ++ "\n" ++
    "                    - Title: " ++ pyStr e.entity_title ++ "\n" ++
    "                    - Description: " ++ pyStr e.entity_description ++ "\n" ++
    "                    " ++ techniques_info ++ "\n" ++
    "                    Please generate 2-3 questions following the specified format and requirements.")

/-! ### Response Parser -/

/-- `_parse_technique_response` (`question_creation.py:562-583`): slice
from the first `{` to the last `}`, `json.loads` the slice, and build one
`MCQQuestion`, preferring the service-echoed identifier and title and
falling back to the work item's.  Note that `end_idx` is
`rfind + 1 ≥ 0`, so the guard `end_idx != -1` never fires; the explicit
`ValueError` is raised exactly when the text has no `{` at all. -/
def parse_technique_response (response_text : String) (entity_data : EntityData) :
    Except PyErr MCQQuestion :=
  let start_idx : Int := pyFind response_text (Char.ofNat 123)
  let end_idx : Int := pyRfind response_text (Char.ofNat 125) + 1
  if start_idx ≠ -1 ∧ end_idx ≠ -1 then do
    let json_str := pySlice response_text start_idx.toNat end_idx.toNat
    let question_data ← json_loads json_str
    let eid ← dictGet question_data "technique_id" entity_data.entity_id
    let etitle ← dictGet question_data "technique_title" entity_data.entity_title
    let qtype ← dictIndex question_data "question_type"
    let q ← dictIndex question_data "question"
    let optsVal ← dictIndex question_data "options"
    let opts ← dictValues optsVal
    let ca ← dictIndex question_data "correct_answer"
    let expl ← dictIndex question_data "explanation"
    pure { entity_id := eid, entity_title := etitle,
           entity_type := entity_data.entity_type,
           question_type := qtype, question := q, options := opts,
           correct_answer := ca, explanation := expl }
  else Except.error (PyErr.valueError "Could not parse JSON from GPT response")

/-- The per-element body of `_parse_procedure_response`: one question
dict to one `MCQQuestion`, with the `procedure_id` / `procedure_title`
echo preferred over the work item's values. -/
def parseProcedureQuestion (entity_data : EntityData) (question_data : Json) :
    Except PyErr MCQQuestion := do
  let eid ← dictGet question_data "procedure_id" entity_data.entity_id
  let etitle ← dictGet question_data "procedure_title" entity_data.entity_title
  let qtype ← dictIndex question_data "question_type"
  let q ← dictIndex question_data "question"
  let optsVal ← dictIndex question_data "options"
  let opts ← dictValues optsVal
  let ca ← dictIndex question_data "correct_answer"
  let expl ← dictIndex question_data "explanation"
  pure { entity_id := eid, entity_title := etitle,
         entity_type := entity_data.entity_type,
         question_type := qtype, question := q, options := opts,
         correct_answer := ca, explanation := expl }

/-- `_parse_procedure_response` (`question_creation.py:585-610`): slice
from the first `[` to the last `]`, `json.loads` the slice, and build one
`MCQQuestion` per element.  As with the technique parser, the explicit
`ValueError` fires exactly when the text has no `[`. -/
def parse_procedure_response (response_text : String) (entity_data : EntityData) :
    Except PyErr (List MCQQuestion) :=
  let start_idx : Int := pyFind response_text '['
  let end_idx : Int := pyRfind response_text ']' + 1
  if start_idx ≠ -1 ∧ end_idx ≠ -1 then do
    let json_str := pySlice response_text start_idx.toNat end_idx.toNat
    let questions_data ← json_loads json_str
    let items ← pyIter questions_data
    exceptMapList (fun question_data => parseProcedureQuestion entity_data question_data) items
  else Except.error (PyErr.valueError "Could not parse JSON array from GPT response")

/-! ### Generation Invoker and Orchestrator -/

/-- The generator's collaborators: the three constant instruction
templates (opaque template data) and the chat-completion call, which maps
a system prompt and a user prompt to raw reply text or a failure. -/
structure GenConfig where
  tactic_system_prompt : String
  technique_system_prompt : String
  procedure_system_prompt : String
  invoke : String → String → Except PyErr String

/-- The prompt-selection dispatch of `generate_mcq_for_entity`
(`question_creation.py:477-493`), which runs before the `try` block: an
entity type other than `technique` / `procedure` raises a `ValueError`
that no handler catches. -/
def select_prompts (cfg : GenConfig) (entity_data : EntityData) :
    Except PyErr (String × String) :=
  if entity_data.entity_type = "technique" ∧ hasParentTactic entity_data then
    match entity_data.context with
    | EntityContext.parentTactic info =>
      Except.ok (cfg.tactic_system_prompt, create_tactic_user_prompt entity_data info)
    | _ => Except.error (PyErr.keyError "parent_tactic")
  else if entity_data.entity_type = "technique" then
    Except.ok (cfg.technique_system_prompt, create_technique_user_prompt entity_data)
  else if entity_data.entity_type = "procedure" then
    match entity_data.context with
    | EntityContext.associatedTechniques assoc =>
      (match create_procedure_user_prompt entity_data assoc with
       | Except.ok up => Except.ok (cfg.procedure_system_prompt, up)
       | Except.error e => Except.error e)
    | _ =>
      (match create_procedure_user_prompt entity_data Json.null with
       | Except.ok up => Except.ok (cfg.procedure_system_prompt, up)
       | Except.error e => Except.error e)
  else
    Except.error (PyErr.valueError ("Unknown entity type: " ++ entity_data.entity_type))

/-- `generate_mcq_for_entity` (`question_creation.py:467-519`): select
the prompts (outside the handler), then invoke and parse inside the
`try`; any exception there is reported and turned into an empty list. -/
def generate_mcq_for_entity (cfg : GenConfig) (entity_data : EntityData) :
    Except PyErr (List MCQQuestion) :=
  match select_prompts cfg entity_data with
  | Except.error e => Except.error e
  | Except.ok prompts =>
    let attempt : Except PyErr (List MCQQuestion) := do
      let content ← cfg.invoke prompts.1 prompts.2
      let response_text := pyStrip content
      if entity_data.entity_type = "procedure" then
        parse_procedure_response response_text entity_data
      else do
        let q ← parse_technique_response response_text entity_data
        pure [q]
    match attempt with
    | Except.error _ => Except.ok []
    | Except.ok qs => Except.ok qs

/-- The per-entity loop shared by both branches of `generate_all_mcqs`
(`question_creation.py:642-655` and `666-679`): accumulate the questions
of the successful items, and count the items reported as failed (the
`✗ Failed to generate MCQs` branch, taken when the item produced no
questions). -/
def processEntities (cfg : GenConfig) :
    List EntityData → Except PyErr (List MCQQuestion × Nat)
  | [] => Except.ok ([], 0)
  | e :: rest => do
    let mcqs ← generate_mcq_for_entity cfg e
    let acc ← processEntities cfg rest
    if mcqs.isEmpty then pure (acc.1, acc.2 + 1)
    else pure (mcqs ++ acc.1, acc.2)

/-- The per-record loop of the array branch of `generate_all_mcqs`
(`question_creation.py:633-655`): extract each record's work items
(exceptions here propagate and abort the run) and process them. -/
def processRecords (cfg : GenConfig) :
    List Json → Except PyErr (List MCQQuestion × Nat)
  | [] => Except.ok ([], 0)
  | item :: rest => do
    let entities ← extract_entities_from_json item
    let _ ← identify_entity_type item
    let this ← processEntities cfg entities
    let more ← processRecords cfg rest
    pure (this.1 ++ more.1, this.2 + more.2)

/-- `generate_all_mcqs` (`question_creation.py:612-687`), modelled from
the loaded JSON value (the file read is an external collaborator): an
array is processed record by record, any other value as a single record.
The returned number counts the work items reported as failed. -/
def generate_all_mcqs (cfg : GenConfig) (json_data : Json) :
    Except PyErr (List MCQQuestion × Nat) :=
  match json_data with
  | Json.arr items => processRecords cfg items
  | j => do
    let entities ← extract_entities_from_json j
    let _ ← identify_entity_type j
    processEntities cfg entities

/-! ### Persistence -/

/-- The `options` sub-dict built in `save_mcqs_to_file`
(`question_creation.py:699-704`): always the four labels `A`-`D`, the
missing positions filled with the empty string. -/
def mcqOptionsObj (opts : List Json) : Json :=
  Json.obj
    [("A", if h : 0 < opts.length then opts.get ⟨0, h⟩ else Json.str ""),
     ("B", if h : 1 < opts.length then opts.get ⟨1, h⟩ else Json.str ""),
     ("C", if h : 2 < opts.length then opts.get ⟨2, h⟩ else Json.str ""),
     ("D", if h : 3 < opts.length then opts.get ⟨3, h⟩ else Json.str "")]

/-- The `mcq_dict` of one record in `save_mcqs_to_file`
(`question_creation.py:693-707`). -/
def mcqDict (mcq : MCQQuestion) : Json :=
  Json.obj
    [("entity_id", mcq.entity_id),
     ("entity_title", mcq.entity_title),
     ("entity_type", Json.str mcq.entity_type),
     ("question_type", mcq.question_type),
     ("question", mcq.question),
     ("options", mcqOptionsObj mcq.options),
     ("correct_answer", mcq.correct_answer),
     ("explanation", mcq.explanation)]

/-- `save_mcqs_to_file` (`question_creation.py:689-713`) up to the JSON
value handed to `json.dump`: the `mcqs_data` list. -/
def mcqs_data (mcqs : List MCQQuestion) : Json :=
  Json.arr (mcqs.map mcqDict)

/-- Modelled from the spec: re-parsing a serialized Question Record
sequence under the output schema of section 6.  The repository contains
no loader for the saved question file, so the inverse reading is taken
from the spec's serialization shape: each record's eight fields are read
back, with `options` restored as the label-ordered list of option
texts. -/
def load_mcq_record (j : Json) : Option MCQQuestion :=
  match j with
  | Json.obj kvs =>
    match kvs.lookup "entity_id", kvs.lookup "entity_title",
          kvs.lookup "entity_type", kvs.lookup "question_type",
          kvs.lookup "question", kvs.lookup "options",
          kvs.lookup "correct_answer", kvs.lookup "explanation" with
    | some eid, some etitle, some (Json.str ety), some qtype,
      some q, some (Json.obj optkvs), some ca, some expl =>
      some { entity_id := eid, entity_title := etitle, entity_type := ety,
             question_type := qtype, question := q,
             options := optkvs.map (fun kv => kv.2),
             correct_answer := ca, explanation := expl }
    | _, _, _, _, _, _, _, _ => none
  | _ => none

/-- Pure structural-recursion map in the `Option` monad, for the
spec-modelled loader. -/
def optionMapList {α β : Type} (f : α → Option β) : List α → Option (List β)
  | [] => some []
  | x :: xs => do
    let y ← f x
    let ys ← optionMapList f xs
    pure (y :: ys)

/-- Modelled from the spec: re-parsing a whole serialized sequence. -/
def load_mcqs (j : Json) : Option (List MCQQuestion) :=
  match j with
  | Json.arr items => optionMapList load_mcq_record items
  | _ => none

/-! ### The classifier as the spec words it -/

/-- The classification algorithm exactly as section 4.1 of the spec
states it, for comparison with `identify_entity_type`: if the `type`
field, compared case-insensitively, is a recognized value, return it;
otherwise classify as tactic when the record has a non-empty
child-techniques sequence and as technique in all remaining cases. -/
def classifySpec (r : Json) : EntityType :=
  let declared : Option String :=
    match r with
    | Json.obj kvs =>
      (match kvs.lookup "type" with
       | some (Json.str s) => some (strLower s)
       | _ => none)
    | _ => none
  if declared = some "tactic" then EntityType.TACTIC
  else if declared = some "technique" then EntityType.TECHNIQUE
  else if declared = some "procedure" then EntityType.PROCEDURE
  else
    let childNonEmpty : Bool :=
      match r with
      | Json.obj kvs =>
        (match kvs.lookup "technique" with
         | some (Json.arr ts) => !ts.isEmpty
         | _ => false)
      | _ => false
    if childNonEmpty then EntityType.TACTIC else EntityType.TECHNIQUE

/-! ### Concrete inputs for the scenario claims -/

/-- A standalone-technique work item used as the originating context of
the parser scenarios. -/
def sampleEntity : EntityData :=
  { entity_id := Json.str "ATM-T0000", entity_title := Json.str "Fallback Title",
    entity_type := "technique", entity_description := Json.str "desc",
    context := EntityContext.subTechniques (Json.arr []) }

/-- The raw reply of the Response Parser scenario of section 8: prose, a
fenced JSON object, trailing prose. -/
def c6raw : String :=
  "Here is the result:\n```json\n\x7b\"technique_id\":\"X1\",\"question_type\":\"Factual Recall MCQ\",\"question\":\"Q?\",\"options\":\x7b\"A\":\"a\",\"B\":\"b\",\"C\":\"c\",\"D\":\"d\"\x7d,\"correct_answer\":\"B\",\"explanation\":\"e\"\x7d\n```\nDone."

/-- The Question Record the scenario reply parses to. -/
def c6expected : MCQQuestion :=
  { entity_id := Json.str "X1", entity_title := Json.str "Fallback Title",
    entity_type := "technique",
    question_type := Json.str "Factual Recall MCQ", question := Json.str "Q?",
    options := [Json.str "a", Json.str "b", Json.str "c", Json.str "d"],
    correct_answer := Json.str "B", explanation := Json.str "e" }

/-- A structurally valid reply whose `correct_answer` is `E`, a label
absent from its `options` keys `A`-`D`. -/
def c1raw : String :=
  "\x7b\"question_type\":\"Factual Recall MCQ\",\"question\":\"Q?\",\"options\":\x7b\"A\":\"a\",\"B\":\"b\",\"C\":\"c\",\"D\":\"d\"\x7d,\"correct_answer\":\"E\",\"explanation\":\"e\"\x7d"

/-- The members of the payload object `c1raw` parses to. -/
def c1members : List (String × Json) :=
  [("question_type", Json.str "Factual Recall MCQ"),
   ("question", Json.str "Q?"),
   ("options", Json.obj [("A", Json.str "a"), ("B", Json.str "b"),
                         ("C", Json.str "c"), ("D", Json.str "d")]),
   ("correct_answer", Json.str "E"),
   ("explanation", Json.str "e")]

/-- The Question Record the parser emits for `c1raw`: its
`correct_answer` is `E` although the reply's option keys are `A`-`D`. -/
def c1q : MCQQuestion :=
  { entity_id := Json.str "ATM-T0000", entity_title := Json.str "Fallback Title",
    entity_type := "technique",
    question_type := Json.str "Factual Recall MCQ", question := Json.str "Q?",
    options := [Json.str "a", Json.str "b", Json.str "c", Json.str "d"],
    correct_answer := Json.str "E", explanation := Json.str "e" }

/-- First record of the 3-record orchestrator batch. -/
def c2r1 : Json :=
  Json.obj [("type", Json.str "technique"), ("id", Json.str "ATM-T0001"),
            ("title", Json.str "Tech One"), ("description", Json.str "d1")]

/-- Second record of the 3-record orchestrator batch (its work item's
generation call fails). -/
def c2r2 : Json :=
  Json.obj [("type", Json.str "technique"), ("id", Json.str "ATM-T0002"),
            ("title", Json.str "Tech Two"), ("description", Json.str "d2")]

/-- Third record of the 3-record orchestrator batch. -/
def c2r3 : Json :=
  Json.obj [("type", Json.str "technique"), ("id", Json.str "ATM-T0003"),
            ("title", Json.str "Tech Three"), ("description", Json.str "d3")]

/-- The work item extracted from `c2r1`. -/
def c2e1 : EntityData :=
  { entity_id := Json.str "ATM-T0001", entity_title := Json.str "Tech One",
    entity_type := "technique", entity_description := Json.str "d1",
    context := EntityContext.subTechniques (Json.arr []) }

/-- The work item extracted from `c2r2`. -/
def c2e2 : EntityData :=
  { entity_id := Json.str "ATM-T0002", entity_title := Json.str "Tech Two",
    entity_type := "technique", entity_description := Json.str "d2",
    context := EntityContext.subTechniques (Json.arr []) }

/-- The work item extracted from `c2r3`. -/
def c2e3 : EntityData :=
  { entity_id := Json.str "ATM-T0003", entity_title := Json.str "Tech Three",
    entity_type := "technique", entity_description := Json.str "d3",
    context := EntityContext.subTechniques (Json.arr []) }

/-- A well-formed service reply without an identifier echo, so the
parsed record falls back to the work item's id and title. -/
def c2goodReply : String :=
  "\x7b\"question_type\":\"Factual Recall MCQ\",\"question\":\"Q?\",\"options\":\x7b\"A\":\"a\",\"B\":\"b\",\"C\":\"c\",\"D\":\"d\"\x7d,\"correct_answer\":\"A\",\"explanation\":\"e\"\x7d"

/-- The Question Record produced for record 1 of the batch. -/
def c2q1 : MCQQuestion :=
  { entity_id := Json.str "ATM-T0001", entity_title := Json.str "Tech One",
    entity_type := "technique",
    question_type := Json.str "Factual Recall MCQ", question := Json.str "Q?",
    options := [Json.str "a", Json.str "b", Json.str "c", Json.str "d"],
    correct_answer := Json.str "A", explanation := Json.str "e" }

/-- The Question Record produced for record 3 of the batch. -/
def c2q3 : MCQQuestion :=
  { entity_id := Json.str "ATM-T0003", entity_title := Json.str "Tech Three",
    entity_type := "technique",
    question_type := Json.str "Factual Recall MCQ", question := Json.str "Q?",
    options := [Json.str "a", Json.str "b", Json.str "c", Json.str "d"],
    correct_answer := Json.str "A", explanation := Json.str "e" }

/-- A concrete collaborator assignment whose completion call fails
exactly on the user prompt of record 2's work item. -/
def c2cfg : GenConfig :=
  { tactic_system_prompt := "SYSTEM PROMPT FOR TACTICS",
    technique_system_prompt := "SYSTEM PROMPT FOR TECHNIQUES",
    procedure_system_prompt := "SYSTEM PROMPT FOR PROCEDURES",
    invoke := fun _ user =>
      if user = create_technique_user_prompt c2e2 then
        Except.error (PyErr.valueError "service unavailable")
      else Except.ok c2goodReply }

/-- A collaborator assignment whose completion call always fails; used
where the reply's content is irrelevant. -/
def offlineCfg : GenConfig :=
  { tactic_system_prompt := "S1", technique_system_prompt := "S2",
    procedure_system_prompt := "S3",
    invoke := fun _ _ => Except.error (PyErr.valueError "offline") }

/-- First child technique of the concrete tactic record (has an `id`). -/
def c5child1 : Json :=
  Json.obj [("title", Json.str "Network Sniffing"), ("id", Json.str "ATM-T0038"),
            ("description", Json.str "sniff the vehicle network")]

/-- Second child technique of the concrete tactic record (no `id`, so
the extractor falls back to `mitreId`). -/
def c5child2 : Json :=
  Json.obj [("title", Json.str "Input Capture"), ("mitreId", Json.str "T0036"),
            ("description", Json.str "capture user input")]

/-- A concrete tactic record with two child techniques. -/
def c5rec : Json :=
  Json.obj [("type", Json.str "tactic"), ("title", Json.str "Credential Access"),
            ("description", Json.str "steal vehicle network credentials"),
            ("id", Json.str "ATM-TA0001"),
            ("technique", Json.arr [c5child1, c5child2])]

/-- A record with no `type` field and no child list (classifier
fallback case). -/
def c3rec : Json :=
  Json.obj [("title", Json.str "Orphan"), ("description", Json.str "no type")]

/-- A record whose declared type differs from the recognized values only
by case. -/
def c4rec : Json :=
  Json.obj [("type", Json.str "Procedure"), ("title", Json.str "P"),
            ("technique", Json.arr [])]

/-- Reply text with no bracketed structure at all. -/
def c7raw : String := "The service returned prose and nothing else."

/-- A Question Record holding only three option texts. -/
def c8q3 : MCQQuestion :=
  { entity_id := Json.str "ATM-T0010", entity_title := Json.str "Three Options",
    entity_type := "technique",
    question_type := Json.str "Diagnostic MCQ", question := Json.str "Q?",
    options := [Json.str "x", Json.str "y", Json.str "z"],
    correct_answer := Json.str "A", explanation := Json.str "e" }

/-- What `c8q3` becomes after one save/load round trip: the missing
fourth option materializes as the empty string. -/
def c8q3pad : MCQQuestion :=
  { entity_id := Json.str "ATM-T0010", entity_title := Json.str "Three Options",
    entity_type := "technique",
    question_type := Json.str "Diagnostic MCQ", question := Json.str "Q?",
    options := [Json.str "x", Json.str "y", Json.str "z", Json.str ""],
    correct_answer := Json.str "A", explanation := Json.str "e" }

/-- A Question Record with exactly four option texts, for the amended
round-trip statement. -/
def c8q4 : MCQQuestion :=
  { entity_id := Json.str "ATM-T0011", entity_title := Json.str "Four Options",
    entity_type := "procedure",
    question_type := Json.str "Scenario-Based", question := Json.str "Q?",
    options := [Json.str "w", Json.str "x", Json.str "y", Json.str "z"],
    correct_answer := Json.str "B", explanation := Json.str "e" }

/-- A concrete procedure record with an empty technique list, for the
dispatch-safety witness. -/
def c10rec : Json :=
  Json.obj [("type", Json.str "procedure"), ("id", Json.str "ATM-P0001"),
            ("title", Json.str "CAN Message Injection"),
            ("description", Json.str "replay collision event messages"),
            ("technique", Json.arr [])]

/-- The work item the tactic branch of the extractor builds from one
child record, as a total function of the child (it agrees with
`mkTacticChild` whenever the child is a dict). -/
def tacticChildItem (info : TacticInfo) (c : Json) : EntityData :=
  { entity_id := jGetD c "id" (jGetD c "mitreId" (Json.str "")),
    entity_title := jGetD c "title" (Json.str ""),
    entity_type := "technique",
    entity_description := jGetD c "description" (Json.str ""),
    context := EntityContext.parentTactic info }

/-! ### Helper lemmas -/

theorem exceptBind_ok {α β : Type} (a : α) (f : α → Except PyErr β) :
    (Except.ok a : Except PyErr α) >>= f = f a := rfl

theorem exceptBind_error {α β : Type} (e : PyErr) (f : α → Except PyErr β) :
    (Except.error e : Except PyErr α) >>= f = Except.error e := rfl

theorem exceptPure {α : Type} (a : α) : (pure a : Except PyErr α) = Except.ok a := rfl

theorem listFind_eq_neg_one {cs : List Char} {c : Char} (h : c ∉ cs) :
    listFind cs c = -1 := by
  induction cs with
  | nil => rfl
  | cons x xs ih =>
    simp only [List.mem_cons, not_or] at h
    simp only [listFind]
    rw [if_neg (fun hx => h.1 hx.symm), ih h.2]
    simp

theorem listRfind_ge_neg_one (cs : List Char) (c : Char) : -1 ≤ listRfind cs c := by
  induction cs with
  | nil => simp [listRfind]
  | cons x xs ih =>
    simp only [listRfind]
    split
    · split
      · omega
      · omega
    · omega

/-- Evaluation of the classifier on a dict whose declared `type` lowers
to `t`: the remaining control flow as one expression. -/
theorem identify_eval (kvs : List (String × Json)) (t : String)
    (ht : pyLower ((kvs.lookup "type").getD (Json.str "")) = Except.ok t) :
    identify_entity_type (Json.obj kvs) =
      Except.ok
        (if t = "tactic" then EntityType.TACTIC
         else if t = "procedure" then EntityType.PROCEDURE
         else if t = "technique" then EntityType.TECHNIQUE
         else
           match kvs.lookup "technique" with
           | some (Json.arr ts) =>
             if ts.length > 0 then EntityType.TACTIC else EntityType.TECHNIQUE
           | _ => EntityType.TECHNIQUE) := by
  unfold identify_entity_type
  have hget : dictGet (Json.obj kvs) "type" (Json.str "") =
      Except.ok ((kvs.lookup "type").getD (Json.str "")) := rfl
  rw [hget, exceptBind_ok, ht, exceptBind_ok]
  by_cases h1 : t = "tactic"
  · simp only [if_pos h1]; rfl
  · rw [if_neg h1, if_neg h1]
    by_cases h2 : t = "procedure"
    · simp only [if_pos h2]; rfl
    · rw [if_neg h2, if_neg h2]
      by_cases h3 : t = "technique"
      · simp only [if_pos h3]; rfl
      · rw [if_neg h3, if_neg h3]
        cases hl : kvs.lookup "technique" with
        | none => simp [hl, exceptPure]
        | some v =>
          cases v with
          | arr ts =>
            simp only [hl]
            split <;> simp_all [exceptPure]
          | null => simp [hl, exceptPure]
          | bool b => simp [hl, exceptPure]
          | num n => simp [hl, exceptPure]
          | str s => simp [hl, exceptPure]
          | obj m => simp [hl, exceptPure]

/-- The TTP Record shape hypothesis of section 3: the record is a dict
and its `type` value, when present, is a string. -/
def TTPShaped (kvs : List (String × Json)) : Prop :=
  kvs.lookup "type" = none ∨ ∃ s, kvs.lookup "type" = some (Json.str s)

/-- A `TTPShaped` lookup always lowers successfully. -/
theorem pyLower_of_shaped {kvs : List (String × Json)} (h : TTPShaped kvs) :
    ∃ t, pyLower ((kvs.lookup "type").getD (Json.str "")) = Except.ok t := by
  rcases h with h | ⟨s, h⟩
  · exact ⟨strLower "", by rw [h]; rfl⟩
  · exact ⟨strLower s, by rw [h]; rfl⟩

/-- C3: For every input record conforming to the TTP Record shape
(missing or malformed, i.e. unrecognized, `type` permitted), the
classifier is total: it returns one of tactic, technique, procedure and
raises no error. -/
theorem c3_classifier_total (kvs : List (String × Json)) (h : TTPShaped kvs) :
    identify_entity_type (Json.obj kvs) = Except.ok EntityType.TACTIC ∨
    identify_entity_type (Json.obj kvs) = Except.ok EntityType.TECHNIQUE ∨
    identify_entity_type (Json.obj kvs) = Except.ok EntityType.PROCEDURE := by
  obtain ⟨t, ht⟩ := pyLower_of_shaped h
  rw [identify_eval kvs t ht]
  generalize (if t = "tactic" then EntityType.TACTIC
    else if t = "procedure" then EntityType.PROCEDURE
    else if t = "technique" then EntityType.TECHNIQUE
    else
      match kvs.lookup "technique" with
      | some (Json.arr ts) =>
        if ts.length > 0 then EntityType.TACTIC else EntityType.TECHNIQUE
      | _ => EntityType.TECHNIQUE) = k
  cases k
  · exact Or.inl rfl
  · exact Or.inr (Or.inl rfl)
  · exact Or.inr (Or.inr rfl)

/-- C3 witness: the classifier at the concrete untyped record `c3rec`. -/
theorem c3_witness :
    identify_entity_type c3rec = Except.ok EntityType.TACTIC ∨
    identify_entity_type c3rec = Except.ok EntityType.TECHNIQUE ∨
    identify_entity_type c3rec = Except.ok EntityType.PROCEDURE :=
  c3_classifier_total
    [("title", Json.str "Orphan"), ("description", Json.str "no type")]
    (Or.inl rfl)

/-- The structural fallback of the code (non-empty `technique` list
means tactic) agrees with the spec's wording of the same fallback, for
any looked-up child value. -/
theorem fallbackEq (o : Option Json) :
    (match o with
     | some (Json.arr ts) =>
       if ts.length > 0 then EntityType.TACTIC else EntityType.TECHNIQUE
     | _ => EntityType.TECHNIQUE) =
    (if (match o with
         | some (Json.arr ts) => !ts.isEmpty
         | _ => false) then EntityType.TACTIC else EntityType.TECHNIQUE) := by
  cases o with
  | none => rfl
  | some v =>
    cases v with
    | arr ts =>
      cases ts with
      | nil => rfl
      | cons a as =>
        show (if (a :: as).length > 0 then EntityType.TACTIC else EntityType.TECHNIQUE) =
          (if !(a :: as).isEmpty then EntityType.TACTIC else EntityType.TECHNIQUE)
        rw [if_pos (by simp), if_pos (by simp)]
    | null => rfl
    | bool b => rfl
    | num n => rfl
    | str s => rfl
    | obj m => rfl

/-- C4: on TTP-shaped records, the classifier implements exactly the
algorithm of section 4.1 of the spec: a recognized declared `type`
(case-insensitively) is authoritative; otherwise a non-empty
child-techniques sequence means tactic, and every remaining record is a
technique. -/
theorem c4_classifier_algorithm (kvs : List (String × Json)) (h : TTPShaped kvs) :
    identify_entity_type (Json.obj kvs) = Except.ok (classifySpec (Json.obj kvs)) := by
  obtain ⟨t, ht⟩ := pyLower_of_shaped h
  rw [identify_eval kvs t ht]
  congr 1
  unfold classifySpec
  rcases h with h0 | ⟨s, h0⟩
  · have ht0 : t = "" := by
      rw [h0] at ht
      exact (Except.ok.inj ht).symm
    subst ht0
    simp only [h0]
    rw [if_neg (by decide : ¬("" : String) = "tactic"),
        if_neg (by decide : ¬("" : String) = "procedure"),
        if_neg (by decide : ¬("" : String) = "technique"),
        if_neg (by decide : ¬(none : Option String) = some "tactic"),
        if_neg (by decide : ¬(none : Option String) = some "technique"),
        if_neg (by decide : ¬(none : Option String) = some "procedure")]
    exact fallbackEq _
  · have hts : t = strLower s := by
      rw [h0] at ht
      exact (Except.ok.inj ht).symm
    subst hts
    simp only [h0]
    by_cases h1 : strLower s = "tactic"
    · rw [if_pos h1, if_pos (by rw [h1] : some (strLower s) = some "tactic")]
    · by_cases h2 : strLower s = "procedure"
      · rw [if_neg h1, if_pos h2,
            if_neg (fun hc => h1 (Option.some.inj hc)),
            if_neg (fun hc => by
              have hx := Option.some.inj hc
              rw [hx] at h2
              exact absurd h2 (by decide)),
            if_pos (by rw [h2] : some (strLower s) = some "procedure")]
      · by_cases h3 : strLower s = "technique"
        · rw [if_neg h1, if_neg h2, if_pos h3,
              if_neg (fun hc => h1 (Option.some.inj hc)),
              if_pos (by rw [h3] : some (strLower s) = some "technique")]
        · rw [if_neg h1, if_neg h2, if_neg h3,
              if_neg (fun hc => h1 (Option.some.inj hc)),
              if_neg (fun hc => h3 (Option.some.inj hc)),
              if_neg (fun hc => h2 (Option.some.inj hc))]
          exact fallbackEq _

/-- C4 witness: the classifier agrees with the spec algorithm on the
concrete record whose declared type differs only by case. -/
theorem c4_witness :
    identify_entity_type c4rec = Except.ok (classifySpec c4rec) :=
  c4_classifier_algorithm
    [("type", Json.str "Procedure"), ("title", Json.str "P"),
     ("technique", Json.arr [])]
    (Or.inr ⟨"Procedure", rfl⟩)

/-- The serializer's guarded index agrees with `List.getD`. -/
theorem diteGet_eq_getD : ∀ (l : List Json) (n : Nat),
    (if h : n < l.length then l.get ⟨n, h⟩ else Json.str "") =
      l.getD n (Json.str "") := by
  intro l n
  by_cases h : n < l.length
  · rw [dif_pos h, List.get_eq_getElem, List.getD_eq_getElem l _ h]
  · rw [dif_neg h, List.getD_eq_default l _ (by omega)]

/-- `getD` below the cut depends only on the prefix. -/
theorem getD_take (d : Json) : ∀ (k n : Nat), n < k → ∀ (a : List Json),
    (a.take k).getD n d = a.getD n d := by
  intro k
  induction k with
  | zero => intro n hn; exact absurd hn (by omega)
  | succ k ih =>
    intro n hn a
    cases a with
    | nil => simp
    | cons x xs =>
      cases n with
      | zero => simp [List.getD_cons_zero]
      | succ m =>
        simp only [List.take_succ_cons, List.getD_cons_succ]
        exact ih m (by omega) xs

/-- The character-level form of `mcqOptionsObj` in terms of `getD`. -/
theorem mcqOptionsObj_eq_getD (opts : List Json) :
    mcqOptionsObj opts =
      Json.obj [("A", opts.getD 0 (Json.str "")), ("B", opts.getD 1 (Json.str "")),
                ("C", opts.getD 2 (Json.str "")), ("D", opts.getD 3 (Json.str ""))] := by
  unfold mcqOptionsObj
  rw [diteGet_eq_getD, diteGet_eq_getD, diteGet_eq_getD, diteGet_eq_getD]

/-- C9: the serialized form of a record carries exactly the four option
labels A-D; a missing position is rendered as the empty string, and
option texts past the fourth do not influence the rendering (it depends
only on the first four texts, so they are silently dropped). -/
theorem c9_options_serialization (opts opts2 : List Json) :
    mcqOptionsObj opts =
      Json.obj [("A", opts.getD 0 (Json.str "")), ("B", opts.getD 1 (Json.str "")),
                ("C", opts.getD 2 (Json.str "")), ("D", opts.getD 3 (Json.str ""))] ∧
    (opts.take 4 = opts2.take 4 → mcqOptionsObj opts = mcqOptionsObj opts2) := by
  refine ⟨mcqOptionsObj_eq_getD opts, fun htake => ?_⟩
  have key : ∀ n, n < 4 → opts.getD n (Json.str "") = opts2.getD n (Json.str "") := by
    intro n hn
    rw [← getD_take (Json.str "") 4 n hn opts, htake, getD_take (Json.str "") 4 n hn opts2]
  rw [mcqOptionsObj_eq_getD, mcqOptionsObj_eq_getD,
      key 0 (by omega), key 1 (by omega), key 2 (by omega), key 3 (by omega)]

/-- C9 witness: a five-option record serializes like its four-option
truncation, with the fifth text dropped. -/
theorem c9_witness :
    mcqOptionsObj [Json.str "o1", Json.str "o2", Json.str "o3", Json.str "o4", Json.str "o5"] =
      Json.obj [("A", [Json.str "o1", Json.str "o2", Json.str "o3", Json.str "o4",
                       Json.str "o5"].getD 0 (Json.str "")),
                ("B", [Json.str "o1", Json.str "o2", Json.str "o3", Json.str "o4",
                       Json.str "o5"].getD 1 (Json.str "")),
                ("C", [Json.str "o1", Json.str "o2", Json.str "o3", Json.str "o4",
                       Json.str "o5"].getD 2 (Json.str "")),
                ("D", [Json.str "o1", Json.str "o2", Json.str "o3", Json.str "o4",
                       Json.str "o5"].getD 3 (Json.str ""))] ∧
    mcqOptionsObj [Json.str "o1", Json.str "o2", Json.str "o3", Json.str "o4", Json.str "o5"] =
      mcqOptionsObj [Json.str "o1", Json.str "o2", Json.str "o3", Json.str "o4"] :=
  ⟨(c9_options_serialization
      [Json.str "o1", Json.str "o2", Json.str "o3", Json.str "o4", Json.str "o5"]
      [Json.str "o1", Json.str "o2", Json.str "o3", Json.str "o4"]).1,
   (c9_options_serialization
      [Json.str "o1", Json.str "o2", Json.str "o3", Json.str "o4", Json.str "o5"]
      [Json.str "o1", Json.str "o2", Json.str "o3", Json.str "o4"]).2 rfl⟩

/-- C7: a reply with no opening bracket of the expected shape at all is
a ParseFailure: the technique parser raises its `ValueError` on text
without a left brace, the procedure parser on text without `[`, and no
Question Record is produced. -/
theorem c7_no_bracket_failure (raw : String) (e : EntityData) :
    (Char.ofNat 123 ∉ raw.data →
      parse_technique_response raw e =
        Except.error (PyErr.valueError "Could not parse JSON from GPT response")) ∧
    ('[' ∉ raw.data →
      parse_procedure_response raw e =
        Except.error (PyErr.valueError "Could not parse JSON array from GPT response")) := by
  constructor
  · intro h
    have hf : pyFind raw (Char.ofNat 123) = -1 := listFind_eq_neg_one h
    simp only [parse_technique_response]
    rw [if_neg (fun hc => hc.1 hf)]
  · intro h
    have hf : pyFind raw '[' = -1 := listFind_eq_neg_one h
    simp only [parse_procedure_response]
    rw [if_neg (fun hc => hc.1 hf)]

/-- C7 witness: both parsers fail on concrete bracket-free prose. -/
theorem c7_witness :
    parse_technique_response c7raw sampleEntity =
      Except.error (PyErr.valueError "Could not parse JSON from GPT response") ∧
    parse_procedure_response c7raw sampleEntity =
      Except.error (PyErr.valueError "Could not parse JSON array from GPT response") :=
  ⟨(c7_no_bracket_failure c7raw sampleEntity).1 (by decide),
   (c7_no_bracket_failure c7raw sampleEntity).2 (by decide)⟩

set_option maxRecDepth 20000 in
/-- C6: on the scenario reply — prose, a fenced JSON object, trailing
prose — the technique parser yields exactly one Question Record with the
echoed `entity_id` `X1` and `correct_answer` `B`, the surrounding prose
and fence markers discarded by the brace slice. -/
theorem c6_parse_scenario :
    parse_technique_response c6raw sampleEntity = Except.ok c6expected ∧
    c6expected.entity_id = Json.str "X1" ∧
    c6expected.correct_answer = Json.str "B" :=
  ⟨rfl, rfl, rfl⟩

set_option maxRecDepth 20000 in
/-- C1 counterexample: a structurally valid reply whose `correct_answer`
`E` is not among its option keys `A`-`D` is not rejected: the parser
emits the Question Record `c1q` carrying the dangling `correct_answer`. -/
theorem c1_counterexample :
    json_loads c1raw = Except.ok (Json.obj c1members) ∧
    parse_technique_response c1raw sampleEntity = Except.ok c1q ∧
    c1q.correct_answer = Json.str "E" ∧
    "E" ∉ ["A", "B", "C", "D"] :=
  ⟨rfl, rfl, rfl, by decide⟩

/-- C1 amended: the technique parser checks only that the brace slice
parses as JSON and that the required fields are present; it never
compares `correct_answer` with the option keys, and emits the
field-copied record regardless of that membership. -/
theorem c1_parser_no_key_validation (raw : String) (e : EntityData)
    (d : List (String × Json)) (qtype q ca expl : Json)
    (optkvs : List (String × Json))
    (hfind : pyFind raw (Char.ofNat 123) ≠ -1)
    (hload : json_loads (pySlice raw (pyFind raw (Char.ofNat 123)).toNat
        (pyRfind raw (Char.ofNat 125) + 1).toNat) = Except.ok (Json.obj d))
    (hqt : d.lookup "question_type" = some qtype)
    (hq : d.lookup "question" = some q)
    (hopts : d.lookup "options" = some (Json.obj optkvs))
    (hca : d.lookup "correct_answer" = some ca)
    (hex : d.lookup "explanation" = some expl) :
    parse_technique_response raw e =
      Except.ok
        { entity_id := (d.lookup "technique_id").getD e.entity_id,
          entity_title := (d.lookup "technique_title").getD e.entity_title,
          entity_type := e.entity_type,
          question_type := qtype, question := q,
          options := optkvs.map (fun kv => kv.2),
          correct_answer := ca, explanation := expl } := by
  have hr : pyRfind raw (Char.ofNat 125) + 1 ≠ -1 := by
    have h2 := listRfind_ge_neg_one raw.data (Char.ofNat 125)
    show listRfind raw.data (Char.ofNat 125) + 1 ≠ -1
    omega
  simp only [parse_technique_response]
  rw [if_pos ⟨hfind, hr⟩, hload]
  simp only [exceptBind_ok, dictGet, dictIndex, dictValues,
    hqt, hq, hopts, hca, hex, exceptPure]

set_option maxRecDepth 20000 in
/-- C1 amended witness: the no-validation characterization evaluated on
the concrete dangling-label reply. -/
theorem c1_parser_no_key_validation_witness :
    parse_technique_response c1raw sampleEntity =
      Except.ok
        { entity_id := (c1members.lookup "technique_id").getD sampleEntity.entity_id,
          entity_title := (c1members.lookup "technique_title").getD sampleEntity.entity_title,
          entity_type := sampleEntity.entity_type,
          question_type := Json.str "Factual Recall MCQ", question := Json.str "Q?",
          options := [("A", Json.str "a"), ("B", Json.str "b"), ("C", Json.str "c"),
                      ("D", Json.str "d")].map (fun kv => kv.2),
          correct_answer := Json.str "E", explanation := Json.str "e" } :=
  c1_parser_no_key_validation c1raw sampleEntity c1members
    (Json.str "Factual Recall MCQ") (Json.str "Q?") (Json.str "E") (Json.str "e")
    [("A", Json.str "a"), ("B", Json.str "b"), ("C", Json.str "c"), ("D", Json.str "d")]
    (by decide) rfl rfl rfl rfl rfl rfl

/-- On dict children the effectful child builder agrees with the total
`tacticChildItem`. -/
theorem mkTacticChild_obj (info : TacticInfo) (m : List (String × Json)) :
    mkTacticChild info (Json.obj m) =
      Except.ok (tacticChildItem info (Json.obj m)) := rfl

/-- `exceptMapList` is the plain map when the function succeeds
pointwise. -/
theorem exceptMapList_ok_of_forall {α β : Type} (f : α → Except PyErr β)
    (g : α → β) :
    ∀ (l : List α), (∀ x ∈ l, f x = Except.ok (g x)) →
      exceptMapList f l = Except.ok (l.map g) := by
  intro l
  induction l with
  | nil => intro _; rfl
  | cons x xs ih =>
    intro h
    simp only [exceptMapList, h x (by simp), exceptBind_ok,
      ih (fun y hy => h y (by simp [hy])), List.map_cons, exceptPure]

/-- C5: a record classified as a tactic whose `technique` field holds
the child list `ts` (each child a dict; an absent field counts as the
empty list) extracts to exactly one work item per child, in child order,
each carrying the same parent context built from the tactic's title,
description and id with the `mitreId` fallback; zero children yield the
empty list and no error. -/
theorem c5_tactic_extraction (kvs : List (String × Json)) (ts : List Json)
    (hty : identify_entity_type (Json.obj kvs) = Except.ok EntityType.TACTIC)
    (hch : kvs.lookup "technique" = some (Json.arr ts) ∨
           (kvs.lookup "technique" = none ∧ ts = []))
    (hobj : ∀ c ∈ ts, ∃ m, c = Json.obj m) :
    extract_entities_from_json (Json.obj kvs) =
      Except.ok (ts.map (tacticChildItem
        { tactic_title := jGetD (Json.obj kvs) "title" (Json.str ""),
          tactic_description := jGetD (Json.obj kvs) "description" (Json.str ""),
          tactic_id := jGetD (Json.obj kvs) "id"
            (jGetD (Json.obj kvs) "mitreId" (Json.str "")) })) := by
  unfold extract_entities_from_json
  rw [hty]
  simp only [exceptBind_ok, dictGet]
  have hmap : exceptMapList
      (fun technique => mkTacticChild
        { tactic_title := (kvs.lookup "title").getD (Json.str ""),
          tactic_description := (kvs.lookup "description").getD (Json.str ""),
          tactic_id := (kvs.lookup "id").getD
            ((kvs.lookup "mitreId").getD (Json.str "")) } technique) ts =
      Except.ok (ts.map (tacticChildItem
        { tactic_title := jGetD (Json.obj kvs) "title" (Json.str ""),
          tactic_description := jGetD (Json.obj kvs) "description" (Json.str ""),
          tactic_id := jGetD (Json.obj kvs) "id"
            (jGetD (Json.obj kvs) "mitreId" (Json.str "")) })) := by
    refine exceptMapList_ok_of_forall _ _ ts (fun c hc => ?_)
    obtain ⟨m, rfl⟩ := hobj c hc
    exact mkTacticChild_obj _ m
  rcases hch with hch | ⟨hch, hts⟩
  · rw [hch]
    simp only [Option.getD_some, pyIter, exceptBind_ok]
    exact hmap
  · subst hts
    rw [hch]
    simp only [Option.getD_none, pyIter, exceptBind_ok]
    exact hmap

/-- C5 witness: the two-child concrete tactic record extracts to its two
work items, the second with the `mitreId` fallback id. -/
theorem c5_witness :
    extract_entities_from_json c5rec =
      Except.ok ([c5child1, c5child2].map (tacticChildItem
        { tactic_title := jGetD c5rec "title" (Json.str ""),
          tactic_description := jGetD c5rec "description" (Json.str ""),
          tactic_id := jGetD c5rec "id" (jGetD c5rec "mitreId" (Json.str "")) })) :=
  c5_tactic_extraction
    [("type", Json.str "tactic"), ("title", Json.str "Credential Access"),
     ("description", Json.str "steal vehicle network credentials"),
     ("id", Json.str "ATM-TA0001"),
     ("technique", Json.arr [c5child1, c5child2])]
    [c5child1, c5child2] rfl (Or.inl rfl)
    (by
      intro c hc
      rcases List.mem_cons.mp hc with rfl | hc2
      · exact ⟨_, rfl⟩
      · rcases List.mem_cons.mp hc2 with rfl | hc3
        · exact ⟨_, rfl⟩
        · exact absurd hc3 (by simp))

/-- A successful classification implies the record was a dict. -/
theorem identify_ok_obj {j : Json} {k : EntityType}
    (h : identify_entity_type j = Except.ok k) : ∃ kvs, j = Json.obj kvs := by
  cases j with
  | obj kvs => exact ⟨kvs, rfl⟩
  | null => exact absurd h (by simp [identify_entity_type, dictGet, exceptBind_error])
  | bool b => exact absurd h (by simp [identify_entity_type, dictGet, exceptBind_error])
  | num n => exact absurd h (by simp [identify_entity_type, dictGet, exceptBind_error])
  | str s => exact absurd h (by simp [identify_entity_type, dictGet, exceptBind_error])
  | arr xs => exact absurd h (by simp [identify_entity_type, dictGet, exceptBind_error])

/-- Members of a successful `exceptMapList` run satisfy any property the
function's successes satisfy. -/
theorem exceptMapList_mem {α β : Type} (f : α → Except PyErr β)
    (P : β → Prop) (hf : ∀ a y, f a = Except.ok y → P y) :
    ∀ (l : List α) (r : List β), exceptMapList f l = Except.ok r →
      ∀ y ∈ r, P y := by
  intro l
  induction l with
  | nil =>
    intro r h y hy
    have hr : ([] : List β) = r := Except.ok.inj h
    rw [← hr] at hy
    exact absurd hy (by simp)
  | cons x xs ih =>
    intro r h y hy
    simp only [exceptMapList] at h
    cases hfx : f x with
    | error e2 =>
      rw [hfx] at h
      exact absurd h (by simp [exceptBind_error])
    | ok b =>
      rw [hfx] at h
      simp only [exceptBind_ok] at h
      cases hrec : exceptMapList f xs with
      | error e2 =>
        rw [hrec] at h
        exact absurd h (by simp [exceptBind_error])
      | ok bs =>
        rw [hrec] at h
        simp only [exceptBind_ok, exceptPure] at h
        have hr : b :: bs = r := Except.ok.inj h
        rw [← hr] at hy
        rcases List.mem_cons.mp hy with rfl | hy2
        · exact hf x y hfx
        · exact ih bs hrec y hy2

/-- A failing `exceptMapList` run names a failing element. -/
theorem exceptMapList_error_src {α β : Type} (f : α → Except PyErr β) :
    ∀ (l : List α) (err : PyErr), exceptMapList f l = Except.error err →
      ∃ x ∈ l, f x = Except.error err := by
  intro l
  induction l with
  | nil => intro err h; exact absurd h (by simp [exceptMapList])
  | cons x xs ih =>
    intro err h
    simp only [exceptMapList] at h
    cases hfx : f x with
    | error e2 =>
      rw [hfx] at h
      simp only [exceptBind_error] at h
      have he2 : e2 = err := Except.error.inj h
      exact ⟨x, by simp, by rw [hfx, he2]⟩
    | ok b =>
      rw [hfx] at h
      simp only [exceptBind_ok] at h
      cases hrec : exceptMapList f xs with
      | error e2 =>
        rw [hrec] at h
        simp only [exceptBind_error] at h
        have he2 : e2 = err := Except.error.inj h
        obtain ⟨z, hz, hfz⟩ := ih e2 hrec
        exact ⟨z, by simp [hz], by rw [hfz, he2]⟩
      | ok bs =>
        rw [hrec] at h
        simp only [exceptBind_ok, exceptPure] at h
        exact absurd h (by simp)

/-- Every work item the tactic child builder succeeds with is a
technique. -/
theorem mkTacticChild_kind (info : TacticInfo) :
    ∀ (c : Json) (y : EntityData), mkTacticChild info c = Except.ok y →
      y.entity_type = "technique" := by
  intro c y h
  cases c with
  | obj m =>
    rw [mkTacticChild_obj] at h
    rw [← Except.ok.inj h]
    rfl
  | null => exact absurd h (by simp [mkTacticChild, dictGet, exceptBind_error])
  | bool b => exact absurd h (by simp [mkTacticChild, dictGet, exceptBind_error])
  | num n => exact absurd h (by simp [mkTacticChild, dictGet, exceptBind_error])
  | str s => exact absurd h (by simp [mkTacticChild, dictGet, exceptBind_error])
  | arr xs => exact absurd h (by simp [mkTacticChild, dictGet, exceptBind_error])

/-- Every work item the extractor produces is a technique or a
procedure. -/
theorem extract_entity_kinds (j : Json) (entities : List EntityData)
    (e : EntityData) (hx : extract_entities_from_json j = Except.ok entities)
    (he : e ∈ entities) :
    e.entity_type = "technique" ∨ e.entity_type = "procedure" := by
  unfold extract_entities_from_json at hx
  cases hid : identify_entity_type j with
  | error err =>
    rw [hid] at hx
    exact absurd hx (by simp [exceptBind_error])
  | ok k =>
    obtain ⟨kvs, rfl⟩ := identify_ok_obj hid
    rw [hid] at hx
    simp only [exceptBind_ok] at hx
    cases k with
    | TACTIC =>
      simp only [dictGet, exceptBind_ok] at hx
      cases hit : pyIter ((kvs.lookup "technique").getD (Json.arr [])) with
      | error err =>
        rw [hit] at hx
        exact absurd hx (by simp [exceptBind_error])
      | ok children =>
        rw [hit] at hx
        simp only [exceptBind_ok] at hx
        exact Or.inl (exceptMapList_mem _ _ (mkTacticChild_kind _) children entities hx e he)
    | PROCEDURE =>
      simp only [dictGet, exceptBind_ok, exceptPure] at hx
      have hr := Except.ok.inj hx
      rw [← hr] at he
      rcases List.mem_cons.mp he with heq | h2
      · right; rw [heq]
      · exact absurd h2 (by simp)
    | TECHNIQUE =>
      simp only [dictGet, exceptBind_ok, exceptPure] at hx
      have hr := Except.ok.inj hx
      rw [← hr] at he
      rcases List.mem_cons.mp he with heq | h2
      · left; rw [heq]
      · exact absurd h2 (by simp)

/-- The per-technique line of the procedure prompt only raises
`AttributeError`. -/
theorem procedure_line_error (x : Json) (err : PyErr)
    (h : (do
        let ttitle ← dictGet x "title" (Json.str "")
        let tdesc ← dictGet x "description" (Json.str "")
        pure ("- " ++ pyStr ttitle ++ ": " ++ pyStr tdesc ++ "\n") :
        Except PyErr String) = Except.error err) :
    err = PyErr.attributeError "get" := by
  cases x with
  | obj m => exact absurd h (by simp [dictGet, exceptBind_ok, exceptPure])
  | null => exact (Except.error.inj h).symm
  | bool b => exact (Except.error.inj h).symm
  | num n => exact (Except.error.inj h).symm
  | str s => exact (Except.error.inj h).symm
  | arr xs => exact (Except.error.inj h).symm

/-- The bullet-block stage after iteration never raises `ValueError`. -/
theorem pti_after_iter (items : List Json) (msg : String) :
    (do
      let lines ← exceptMapList (fun tech => do
        let ttitle ← dictGet tech "title" (Json.str "")
        let tdesc ← dictGet tech "description" (Json.str "")
        pure ("- " ++ pyStr ttitle ++ ": " ++ pyStr tdesc ++ "\n")) items
      pure (String.join lines) : Except PyErr String) ≠
      Except.error (PyErr.valueError msg) := by
  intro h
  cases hm : exceptMapList (fun tech => do
      let ttitle ← dictGet tech "title" (Json.str "")
      let tdesc ← dictGet tech "description" (Json.str "")
      pure ("- " ++ pyStr ttitle ++ ": " ++ pyStr tdesc ++ "\n")) items with
  | error err =>
    rw [hm] at h
    simp only [exceptBind_error] at h
    have he : err = PyErr.valueError msg := Except.error.inj h
    obtain ⟨x, _, hfx⟩ := exceptMapList_error_src _ items err hm
    have ha := procedure_line_error x err hfx
    rw [ha] at he
    exact absurd he (by simp)
  | ok lines =>
    rw [hm] at h
    simp only [exceptBind_ok, exceptPure] at h
    exact absurd h (by simp)

/-- `proceduresTechniquesInfo` never raises `ValueError`. -/
theorem pti_no_valueError (assoc : Json) (msg : String) :
    proceduresTechniquesInfo assoc ≠ Except.error (PyErr.valueError msg) := by
  intro h
  unfold proceduresTechniquesInfo at h
  cases assoc with
  | null => exact absurd (Except.error.inj h) (by simp)
  | bool b => exact absurd (Except.error.inj h) (by simp)
  | num n => exact absurd (Except.error.inj h) (by simp)
  | arr xs => exact pti_after_iter xs msg h
  | str s => exact pti_after_iter _ msg h
  | obj m => exact pti_after_iter _ msg h

/-- The procedure user-prompt builder never raises `ValueError`. -/
theorem cpup_no_valueError (e : EntityData) (assoc : Json) (msg : String) :
    create_procedure_user_prompt e assoc ≠ Except.error (PyErr.valueError msg) := by
  intro h
  unfold create_procedure_user_prompt at h
  cases htr : pyTruthy assoc with
  | false =>
    rw [htr] at h
    simp only [Bool.false_eq_true, if_false, exceptBind_ok, exceptPure] at h
    exact absurd h (by simp)
  | true =>
    rw [htr] at h
    simp only [if_true, exceptBind_ok] at h
    cases hp : proceduresTechniquesInfo assoc with
    | error err =>
      rw [hp] at h
      simp only [exceptBind_error] at h
      have he : err = PyErr.valueError msg := Except.error.inj h
      rw [he] at hp
      exact pti_no_valueError assoc msg hp
    | ok block =>
      rw [hp] at h
      simp only [exceptBind_ok, exceptPure] at h
      exact absurd h (by simp)

/-- C10: every extractor-produced work item has kind technique or
procedure, and the unknown-entity-kind `ValueError` branch of the
prompt-selection dispatch — which runs before the per-item exception
handler and whose exception would abort the whole batch — is unreachable
for such items: the dispatch never returns a `ValueError` for them. -/
theorem c10_unknown_kind_branch_unreachable (cfg : GenConfig) (j : Json)
    (entities : List EntityData) (e : EntityData)
    (hx : extract_entities_from_json j = Except.ok entities) (he : e ∈ entities) :
    (e.entity_type = "technique" ∨ e.entity_type = "procedure") ∧
    ∀ msg, select_prompts cfg e ≠ Except.error (PyErr.valueError msg) := by
  obtain ⟨eid, etitle, ety, edesc, ectx⟩ := e
  have hkind := extract_entity_kinds j entities _ hx he
  refine ⟨hkind, fun msg hsel => ?_⟩
  rcases hkind with htech | hproc
  · simp only at htech
    subst htech
    unfold select_prompts at hsel
    cases ectx with
    | parentTactic info => simp [hasParentTactic] at hsel
    | associatedTechniques ts => simp [hasParentTactic] at hsel
    | subTechniques ts => simp [hasParentTactic] at hsel
  · simp only at hproc
    subst hproc
    unfold select_prompts at hsel
    cases ectx with
    | parentTactic info =>
      simp only [hasParentTactic] at hsel
      rw [if_pos trivial] at hsel
      cases hc : create_procedure_user_prompt
          { entity_id := eid, entity_title := etitle, entity_type := "procedure",
            entity_description := edesc,
            context := EntityContext.parentTactic info } Json.null with
      | ok up => rw [hc] at hsel; simp at hsel
      | error e2 =>
        rw [hc] at hsel
        simp at hsel
        rw [hsel] at hc
        exact cpup_no_valueError _ Json.null msg hc
    | subTechniques ts =>
      simp only [hasParentTactic] at hsel
      cases hc : create_procedure_user_prompt
          { entity_id := eid, entity_title := etitle, entity_type := "procedure",
            entity_description := edesc,
            context := EntityContext.subTechniques ts } Json.null with
      | ok up => rw [hc] at hsel; simp at hsel
      | error e2 =>
        rw [hc] at hsel
        simp at hsel
        rw [hsel] at hc
        exact cpup_no_valueError _ Json.null msg hc
    | associatedTechniques ts =>
      simp only [hasParentTactic] at hsel
      cases hc : create_procedure_user_prompt
          { entity_id := eid, entity_title := etitle, entity_type := "procedure",
            entity_description := edesc,
            context := EntityContext.associatedTechniques ts } ts with
      | ok up => rw [hc] at hsel; simp at hsel
      | error e2 =>
        rw [hc] at hsel
        simp at hsel
        rw [hsel] at hc
        exact cpup_no_valueError _ ts msg hc

/-- C10 witness: the dispatch on the single work item extracted from the
concrete procedure record. -/
theorem c10_witness :
    (({ entity_id := Json.str "ATM-P0001",
        entity_title := Json.str "CAN Message Injection",
        entity_type := "procedure",
        entity_description := Json.str "replay collision event messages",
        context := EntityContext.associatedTechniques (Json.arr []) } :
          EntityData).entity_type = "technique" ∨
     ({ entity_id := Json.str "ATM-P0001",
        entity_title := Json.str "CAN Message Injection",
        entity_type := "procedure",
        entity_description := Json.str "replay collision event messages",
        context := EntityContext.associatedTechniques (Json.arr []) } :
          EntityData).entity_type = "procedure") ∧
    select_prompts offlineCfg
        { entity_id := Json.str "ATM-P0001",
          entity_title := Json.str "CAN Message Injection",
          entity_type := "procedure",
          entity_description := Json.str "replay collision event messages",
          context := EntityContext.associatedTechniques (Json.arr []) } ≠
      Except.error (PyErr.valueError "Unknown entity type: procedure") :=
  ⟨(c10_unknown_kind_branch_unreachable offlineCfg c10rec
      [{ entity_id := Json.str "ATM-P0001",
         entity_title := Json.str "CAN Message Injection",
         entity_type := "procedure",
         entity_description := Json.str "replay collision event messages",
         context := EntityContext.associatedTechniques (Json.arr []) }]
      _ rfl (by simp)).1,
   (c10_unknown_kind_branch_unreachable offlineCfg c10rec
      [{ entity_id := Json.str "ATM-P0001",
         entity_title := Json.str "CAN Message Injection",
         entity_type := "procedure",
         entity_description := Json.str "replay collision event messages",
         context := EntityContext.associatedTechniques (Json.arr []) }]
      _ rfl (by simp)).2 "Unknown entity type: procedure"⟩

set_option maxRecDepth 20000 in
/-- C2: for any template texts and any completion collaborator that
answers well for records 1 and 3 of the concrete 3-record batch but
fails with any error on record 2's work item, the orchestrator returns
normally with exactly the Question Records of records 1 and 3 and a
failure count of one: the failing item contributes nothing, is recorded,
and never aborts the batch.  The first conjunct states the general
continuation law: any work item whose generation attempt was caught and
yielded no questions adds exactly one recorded failure and leaves the
rest of the loop's outcome unchanged. -/
theorem c2_single_failure_continues (cfg : GenConfig) (err : PyErr)
    (h1 : cfg.invoke cfg.technique_system_prompt
        (create_technique_user_prompt c2e1) = Except.ok c2goodReply)
    (h2 : cfg.invoke cfg.technique_system_prompt
        (create_technique_user_prompt c2e2) = Except.error err)
    (h3 : cfg.invoke cfg.technique_system_prompt
        (create_technique_user_prompt c2e3) = Except.ok c2goodReply) :
    (∀ (cfg2 : GenConfig) (e : EntityData) (rest : List EntityData)
        (l : List MCQQuestion) (n : Nat),
      generate_mcq_for_entity cfg2 e = Except.ok [] →
      processEntities cfg2 rest = Except.ok (l, n) →
      processEntities cfg2 (e :: rest) = Except.ok (l, n + 1)) ∧
    generate_all_mcqs cfg (Json.arr [c2r1, c2r2, c2r3]) =
      Except.ok ([c2q1, c2q3], 1) := by
  refine ⟨fun cfg2 e rest l n hgen hrest => ?_, ?_⟩
  · simp only [processEntities, hgen, exceptBind_ok, hrest, exceptPure]
    rfl
  have hgen1 : generate_mcq_for_entity cfg c2e1 = Except.ok [c2q1] := by
    rw [show generate_mcq_for_entity cfg c2e1 =
      (match (cfg.invoke cfg.technique_system_prompt
          (create_technique_user_prompt c2e1) >>= fun content =>
        (do
          let q ← parse_technique_response (pyStrip content) c2e1
          pure [q] : Except PyErr (List MCQQuestion))) with
       | Except.error _ => Except.ok ([] : List MCQQuestion)
       | Except.ok qs => Except.ok qs) from rfl, h1]
    rfl
  have hgen2 : generate_mcq_for_entity cfg c2e2 = Except.ok [] := by
    rw [show generate_mcq_for_entity cfg c2e2 =
      (match (cfg.invoke cfg.technique_system_prompt
          (create_technique_user_prompt c2e2) >>= fun content =>
        (do
          let q ← parse_technique_response (pyStrip content) c2e2
          pure [q] : Except PyErr (List MCQQuestion))) with
       | Except.error _ => Except.ok ([] : List MCQQuestion)
       | Except.ok qs => Except.ok qs) from rfl, h2]
    rfl
  have hgen3 : generate_mcq_for_entity cfg c2e3 = Except.ok [c2q3] := by
    rw [show generate_mcq_for_entity cfg c2e3 =
      (match (cfg.invoke cfg.technique_system_prompt
          (create_technique_user_prompt c2e3) >>= fun content =>
        (do
          let q ← parse_technique_response (pyStrip content) c2e3
          pure [q] : Except PyErr (List MCQQuestion))) with
       | Except.error _ => Except.ok ([] : List MCQQuestion)
       | Except.ok qs => Except.ok qs) from rfl, h3]
    rfl
  have pe1 : processEntities cfg [c2e1] = Except.ok ([c2q1], 0) := by
    simp only [processEntities, hgen1, exceptBind_ok]
    rfl
  have pe2 : processEntities cfg [c2e2] = Except.ok ([], 1) := by
    simp only [processEntities, hgen2, exceptBind_ok]
    rfl
  have pe3 : processEntities cfg [c2e3] = Except.ok ([c2q3], 0) := by
    simp only [processEntities, hgen3, exceptBind_ok]
    rfl
  show processRecords cfg [c2r1, c2r2, c2r3] = Except.ok ([c2q1, c2q3], 1)
  simp only [processRecords,
    show extract_entities_from_json c2r1 = Except.ok [c2e1] from rfl,
    show extract_entities_from_json c2r2 = Except.ok [c2e2] from rfl,
    show extract_entities_from_json c2r3 = Except.ok [c2e3] from rfl,
    show identify_entity_type c2r1 = Except.ok EntityType.TECHNIQUE from rfl,
    show identify_entity_type c2r2 = Except.ok EntityType.TECHNIQUE from rfl,
    show identify_entity_type c2r3 = Except.ok EntityType.TECHNIQUE from rfl,
    exceptBind_ok, pe1, pe2, pe3, exceptPure]
  rfl

set_option maxRecDepth 20000 in
/-- C2 witness: the batch run under the concrete collaborator whose
completion call fails exactly on record 2's prompt. -/
theorem c2_witness :
    generate_all_mcqs c2cfg (Json.arr [c2r1, c2r2, c2r3]) =
      Except.ok ([c2q1, c2q3], 1) :=
  (c2_single_failure_continues c2cfg (PyErr.valueError "service unavailable")
    rfl rfl rfl).2

/-- One serialized record loads back to its source when the source held
exactly four option texts. -/
theorem load_mcqDict (q : MCQQuestion) (h : q.options.length = 4) :
    load_mcq_record (mcqDict q) = some q := by
  rcases q with ⟨eid, etitle, ety, qt, qq, opts, ca, ex⟩
  change opts.length = 4 at h
  rcases opts with _ | ⟨a, _ | ⟨b, _ | ⟨c, _ | ⟨d, _ | ⟨x, rest⟩⟩⟩⟩⟩
  · simp at h
  · simp at h
  · simp at h
  · simp at h
  · rfl
  · simp only [List.length_cons] at h
    omega

/-- Option-monad bind on `some` reduces. -/
theorem optionBind_some {α β : Type} (a : α) (f : α → Option β) :
    (some a >>= f) = f a := rfl

/-- Option-monad pure is `some`. -/
theorem optionPure {α : Type} (a : α) : (pure a : Option α) = some a := rfl

/-- The loader inverts the serializer on lists of four-option records. -/
theorem optionMapList_load (l : List MCQQuestion)
    (h : ∀ q ∈ l, q.options.length = 4) :
    optionMapList load_mcq_record (l.map mcqDict) = some l := by
  induction l with
  | nil => rfl
  | cons q qs ih =>
    simp only [List.map_cons, optionMapList, load_mcqDict q (h q (by simp)),
      optionBind_some, ih (fun r hr => h r (by simp [hr])), optionPure]

/-- C8 amended: the save/load round trip under the output schema is the
identity exactly on sequences whose records each hold exactly four
option texts; records with another count are padded or truncated to
four, so the round trip is not the identity in general. -/
theorem c8_roundtrip_four_options (mcqs : List MCQQuestion)
    (h : ∀ q ∈ mcqs, q.options.length = 4) :
    load_mcqs (mcqs_data mcqs) = some mcqs := by
  show optionMapList load_mcq_record (mcqs.map mcqDict) = some mcqs
  exact optionMapList_load mcqs h

/-- C8 amended witness: the round trip on a concrete four-option
record. -/
theorem c8_roundtrip_witness :
    load_mcqs (mcqs_data [c8q4]) = some [c8q4] :=
  c8_roundtrip_four_options [c8q4]
    (by
      intro q hq
      rw [List.mem_singleton.mp hq]
      rfl)

/-- C8 counterexample: serializing a three-option record and re-parsing
yields the padded record, not the original, so the round trip is not the
identity on every sequence. -/
theorem c8_counterexample :
    load_mcqs (mcqs_data [c8q3]) = some [c8q3pad] ∧
    c8q3pad.options.length = 4 ∧ c8q3.options.length = 3 ∧
    load_mcqs (mcqs_data [c8q3]) ≠ some [c8q3] := by
  refine ⟨rfl, rfl, rfl, ?_⟩
  intro h
  have h0 : load_mcqs (mcqs_data [c8q3]) = some [c8q3pad] := rfl
  rw [h0] at h
  have h2 := Option.some.inj h
  have h3 := (List.cons.inj h2).1
  have h4 := congrArg (fun q => q.options.length) h3
  exact absurd h4 (by decide)

end AutoISAC
